import Mathlib

/-!
Verification of ftdi-eeprom (src/ftdi-eeprom.c), a small CLI tool that
rewrites the manufacturer / product / serial strings in an FTDI device
EEPROM.  The C source is shallowly embedded: `strtol` (base 0, as used by
`parse_device_identifier`), the identifier parser itself, and `main` as a
function from the parsed option stream, the positional arguments, and a
`World` record holding the results the external libusb / libftdi calls
would return, to an exit code together with a trace of observable events
(library calls and diagnostics).
-/

namespace FtdiEeprom

/-- The `isspace` characters of the C locale, used by `strtol` to skip
leading whitespace. -/
def isSpaceC (c : Char) : Bool :=
  c = ' ' || c = '\t' || c = '\n' || c = '\x0b' || c = '\x0c' || c = '\r'

/-- Numeric value of a character as a digit; characters that are not
alphanumeric get the value 99, which is `≥` every base and therefore never
accepted. -/
def digitVal (c : Char) : Nat :=
  if '0' ≤ c ∧ c ≤ '9' then c.toNat - '0'.toNat
  else if 'a' ≤ c ∧ c ≤ 'z' then c.toNat - 'a'.toNat + 10
  else if 'A' ≤ c ∧ c ≤ 'Z' then c.toNat - 'A'.toNat + 10
  else 99

/-- Whether `c` is a valid digit in the given base. -/
def isBaseDigit (base : Nat) (c : Char) : Bool :=
  digitVal c < base

/-- Accumulate consecutive digits of `base` from the front of the list:
returns the accumulated magnitude, the number of digits consumed, and the
unconsumed remainder. -/
def parseDigits (base : Nat) : Nat → Nat → List Char → Nat × Nat × List Char
  | acc, cnt, [] => (acc, cnt, [])
  | acc, cnt, c :: cs =>
    if isBaseDigit base c then parseDigits base (acc * base + digitVal c) (cnt + 1) cs
    else (acc, cnt, c :: cs)

/-- `LONG_MAX` for the 64-bit `long` of the target platform. -/
def LONG_MAX : Int := 2 ^ 63 - 1

/-- `LONG_MIN` for the 64-bit `long` of the target platform. -/
def LONG_MIN : Int := -(2 ^ 63)

/-- `strtol` clamps an out-of-range result to `LONG_MIN` / `LONG_MAX`. -/
def clampLong (i : Int) : Int :=
  if i < LONG_MIN then LONG_MIN else if i > LONG_MAX then LONG_MAX else i

/-- Conversion of a `long` value to `int` (two's-complement 32-bit wrap,
the behaviour of the target platform), modelling the `(int) tmp` casts in
`parse_device_identifier`. -/
def castToInt (i : Int) : Int :=
  (i + 2 ^ 31) % 2 ^ 32 - 2 ^ 31

/-- C `strtol(s, &endptr, 0)`: skip whitespace, read an optional sign,
then a decimal, hexadecimal (`0x`/`0X`) or octal (leading `0`) magnitude.
Returns the (clamped) value and the suffix `endptr` points at; when no
digits are converted the value is 0 and `endptr` is the original string. -/
def strtol (s : List Char) : Int × List Char :=
  let t := s.dropWhile isSpaceC
  let neg : Bool := t.head? = some '-'
  let t1 := if t.head? = some '-' ∨ t.head? = some '+' then t.tail else t
  let core : Option (Nat × List Char) :=
    match t1 with
    | '0' :: c :: cs =>
      if c = 'x' ∨ c = 'X' then
        match cs with
        | d :: _ =>
          if isBaseDigit 16 d then
            let r := parseDigits 16 0 0 cs
            some (r.1, r.2.2)
          else
            some (0, c :: cs)
        | [] => some (0, c :: cs)
      else
        let r := parseDigits 8 0 0 ('0' :: c :: cs)
        some (r.1, r.2.2)
    | ['0'] => some (0, [])
    | _ =>
      let r := parseDigits 10 0 0 t1
      if r.2.1 = 0 then none else some (r.1, r.2.2)
  match core with
  | none => (0, s)
  | some (mag, rest) =>
    (clampLong (if neg then -(mag : Int) else (mag : Int)), rest)

/-- `parse_device_identifier` from src/ftdi-eeprom.c.  The C function
takes `int* bus` and `int* device` out-parameters; the embedding takes
their incoming values and returns the triple
(result, final `*bus`, final `*device`), so that partial writes on
failure are observable. -/
def parse_device_identifier (bus device : Int) (identifier : List Char) :
    Bool × Int × Int :=
  let r1 := strtol identifier
  match r1.2 with
  | ':' :: rest =>
    let bus1 := castToInt r1.1
    let r2 := strtol rest
    match r2.2 with
    | [] => (true, bus1, castToInt r2.1)
    | _ => (false, bus1, device)
  | _ => (false, bus, device)

/-- One option delivered by the `getopt_long` loop in `main`
(the embedding models the stream of results the loop receives; `unknown`
is the `?` result for an unrecognised option, which the `switch` in the C
code silently ignores). -/
inductive Opt where
  | m (optarg : List Char)
  | p (optarg : List Char)
  | s (optarg : List Char)
  | v
  | h
  | unknown
  deriving DecidableEq, Repr

/-- Observable events of a run of `main`: library calls and writes to the
standard streams (`errMsg` is one `fprintf(stderr, ...)` diagnostic;
`print_verbose` output is conditional debug chatter and not modelled). -/
inductive Event where
  | printHelpStdout
  | errMsg
  | libusbInit
  | getDeviceList
  | ftdiInit
  | openDev
  | getDeviceDescriptor
  | getManufacturer
  | getProduct
  | getSerial
  | eepromInitdefaults (manufacturer product serial : List Char)
  | eepromBuild
  | writeEeprom
  | ftdiDeinit
  deriving DecidableEq, Repr

/-- A USB device as seen through libusb: its bus number and device
address (both `uint8_t` in libusb, modelled as `Nat`). -/
structure UsbDev where
  busNumber : Nat
  deviceAddress : Nat
  deriving DecidableEq, Repr

/-- The results the external libusb / libftdi calls would return, one
field per call site in `main`.  String-descriptor reads either fail with
a negative code or succeed and fill the buffer with the given string. -/
structure World where
  deviceList : Except Int (List UsbDev)
  ftdiInitRes : Int
  openRes : Int
  devDescRes : Except Int Unit
  manufRes : Except Int (List Char)
  prodRes : Except Int (List Char)
  serialRes : Except Int (List Char)
  initdefaultsRes : Int
  buildRes : Int
  writeRes : Int
  deriving Repr

/-- The `getopt_long` loop of `main`: folds over the option stream
updating the three string pointers; `-h` makes `main` print the help and
return `EXIT_SUCCESS` at once, modelled by `none`.  On normal completion
it returns the final (manufacturer, product, serial) pointers, `none`
meaning the C pointer is still `NULL`. -/
def optLoop :
    List Opt → Option (List Char) → Option (List Char) → Option (List Char) →
    Option (Option (List Char) × Option (List Char) × Option (List Char))
  | [], m, p, s => some (m, p, s)
  | .m a :: rest, _, p, s => optLoop rest (some a) p s
  | .p a :: rest, m, _, s => optLoop rest m (some a) s
  | .s a :: rest, m, p, _ => optLoop rest m p (some a)
  | .v :: rest, m, p, s => optLoop rest m p s
  | .h :: _, _, _, _ => none
  | .unknown :: rest, m, p, s => optLoop rest m p s

/-- The part of `main` after a single positional argument has been found:
parse the identifier, enumerate devices, pick the first match, open it,
read the three descriptor strings (a user-supplied option overrides the
string read from the device), then initdefaults / build / write / deinit.
Returns the exit code and the trace of events, mirroring the linear
early-return structure of the C code. -/
def runDevice (mOpt pOpt sOpt : Option (List Char)) (arg : List Char)
    (w : World) : Nat × List Event :=
  match parse_device_identifier (-1) (-1) arg with
  | (false, _, _) => (1, [.errMsg])
  | (true, bus, device) =>
    match w.deviceList with
    | .error _ => (1, [.libusbInit, .getDeviceList, .errMsg])
    | .ok devs =>
      match devs.find? (fun d =>
          decide ((d.busNumber : Int) = bus) &&
          decide ((d.deviceAddress : Int) = device)) with
      | none => (1, [.libusbInit, .getDeviceList, .errMsg])
      | some _ =>
        if w.ftdiInitRes ≠ 0 then
          (1, [.libusbInit, .getDeviceList, .ftdiInit, .errMsg])
        else if w.openRes ≠ 0 then
          (1, [.libusbInit, .getDeviceList, .ftdiInit, .openDev, .errMsg,
               .errMsg])
        else
          match w.devDescRes with
          | .error _ =>
            (1, [.libusbInit, .getDeviceList, .ftdiInit, .openDev,
                 .getDeviceDescriptor, .errMsg])
          | .ok _ =>
            match w.manufRes with
            | .error _ =>
              (1, [.libusbInit, .getDeviceList, .ftdiInit, .openDev,
                   .getDeviceDescriptor, .getManufacturer, .errMsg])
            | .ok origManufacturer =>
              match w.prodRes with
              | .error _ =>
                (1, [.libusbInit, .getDeviceList, .ftdiInit, .openDev,
                     .getDeviceDescriptor, .getManufacturer, .getProduct,
                     .errMsg])
              | .ok origProduct =>
                match w.serialRes with
                | .error _ =>
                  (1, [.libusbInit, .getDeviceList, .ftdiInit, .openDev,
                       .getDeviceDescriptor, .getManufacturer, .getProduct,
                       .getSerial, .errMsg])
                | .ok origSerial =>
                  let manufacturer := mOpt.getD origManufacturer
                  let product := pOpt.getD origProduct
                  let serial := sOpt.getD origSerial
                  if w.initdefaultsRes < 0 then
                    (1, [.libusbInit, .getDeviceList, .ftdiInit, .openDev,
                         .getDeviceDescriptor, .getManufacturer, .getProduct,
                         .getSerial,
                         .eepromInitdefaults manufacturer product serial,
                         .errMsg])
                  else if w.buildRes < 0 then
                    (1, [.libusbInit, .getDeviceList, .ftdiInit, .openDev,
                         .getDeviceDescriptor, .getManufacturer, .getProduct,
                         .getSerial,
                         .eepromInitdefaults manufacturer product serial,
                         .eepromBuild, .errMsg])
                  else if w.writeRes < 0 then
                    (1, [.libusbInit, .getDeviceList, .ftdiInit, .openDev,
                         .getDeviceDescriptor, .getManufacturer, .getProduct,
                         .getSerial,
                         .eepromInitdefaults manufacturer product serial,
                         .eepromBuild, .writeEeprom, .errMsg])
                  else
                    (0, [.libusbInit, .getDeviceList, .ftdiInit, .openDev,
                         .getDeviceDescriptor, .getManufacturer, .getProduct,
                         .getSerial,
                         .eepromInitdefaults manufacturer product serial,
                         .eepromBuild, .writeEeprom, .ftdiDeinit])

/-- `main` from src/ftdi-eeprom.c: run the option loop; `-h` prints the
help to stdout and returns `EXIT_SUCCESS`; otherwise exactly one
positional argument is required (`optind + 1 != argc` prints the help and
returns `EXIT_FAILURE`), and the device sequence runs on it. -/
def runMain (opts : List Opt) (positional : List (List Char)) (w : World) :
    Nat × List Event :=
  match optLoop opts none none none with
  | none => (0, [.printHelpStdout])
  | some (mOpt, pOpt, sOpt) =>
    match positional with
    | [arg] => runDevice mOpt pOpt sOpt arg w
    | _ => (1, [.printHelpStdout])

/-! ### Helper lemmas -/

theorem strtol_colon_cons (s : List Char) : strtol (':' :: s) = (0, ':' :: s) := by
  simp [strtol, parseDigits, isSpaceC, isBaseDigit, digitVal, List.dropWhile]

theorem parse_fst_or_snd (bus device : Int) (s : List Char) :
    (parse_device_identifier bus device s).1 = true ∨
    (parse_device_identifier bus device s).2.2 = device := by
  simp only [parse_device_identifier]
  split
  · split
    · left; rfl
    · right; rfl
  · right; rfl

/-! ### Claims about parse_device_identifier -/

/-- C2: `parse_device_identifier` on "1:2" returns true with bus=1 and
device=2; on "1:2:3" it returns false; on "abc" it returns false. -/
theorem claim_c2_parse_examples :
    parse_device_identifier (-1) (-1) ("1:2".toList) = (true, 1, 2) ∧
    (parse_device_identifier (-1) (-1) ("1:2:3".toList)).1 = false ∧
    (parse_device_identifier (-1) (-1) ("abc".toList)).1 = false := by
  refine ⟨by decide, by decide, by decide⟩

/-- C8: `parse_device_identifier` accepts an identifier with no digits
before the colon, giving bus=0 (for any suffix `strtol` fully consumes);
and since `strtol` runs with base 0, hexadecimal ("0x1:2" gives bus=1),
octal ("010:2" gives bus=8) and negative ("-1:-2") components are
accepted and converted accordingly. -/
theorem claim_c8_base0_components :
    parse_device_identifier (-1) (-1) ("0x1:2".toList) = (true, 1, 2) ∧
    parse_device_identifier (-1) (-1) ("010:2".toList) = (true, 8, 2) ∧
    parse_device_identifier (-1) (-1) ("-1:-2".toList) = (true, -1, -2) ∧
    ∀ (s : List Char) (v bus device : Int), strtol s = (v, []) →
      parse_device_identifier bus device (':' :: s) = (true, 0, castToInt v) := by
  refine ⟨by decide, by decide, by decide, ?_⟩
  intro s v bus device hs
  unfold parse_device_identifier
  rw [strtol_colon_cons]
  simp only [hs]
  norm_num [castToInt]

/-- Witness for C8: the identifier ":5" parses successfully to bus=0,
device=5. -/
theorem claim_c8_base0_components_witness :
    parse_device_identifier (-1) (-1) (':' :: ['5']) = (true, 0, castToInt 5) :=
  claim_c8_base0_components.2.2.2 ['5'] 5 (-1) (-1) (by decide)

/-- C9: `parse_device_identifier` is not atomic on failure: on an
identifier `<number>:<suffix>` whose suffix does not parse to a complete
number it returns false having already overwritten `*bus` with the first
number, while `*device` is left unchanged on every failing input. -/
theorem claim_c9_partial_write :
    (∀ (bus device : Int) (s : List Char),
        (parse_device_identifier bus device s).1 = false →
        (parse_device_identifier bus device s).2.2 = device) ∧
    (∀ (bus device n v : Int) (s suffix rest : List Char),
        strtol s = (n, ':' :: suffix) →
        strtol suffix = (v, rest) → rest ≠ [] →
        parse_device_identifier bus device s = (false, castToInt n, device)) := by
  constructor
  · intro bus device s hf
    rcases parse_fst_or_snd bus device s with h | h
    · rw [h] at hf; exact absurd hf (by decide)
    · exact h
  · intro bus device n v s suffix rest h1 h2 h3
    unfold parse_device_identifier
    rw [h1]
    simp only []
    rw [h2]
    cases rest with
    | nil => exact absurd rfl h3
    | cons c cs => rfl

/-- Witness for C9: "1:2:3" fails but leaves bus=1 written and device at
its prior value -1. -/
theorem claim_c9_partial_write_witness :
    parse_device_identifier (-1) (-1) ("1:2:3".toList) =
      (false, castToInt 1, -1) :=
  claim_c9_partial_write.2 (-1) (-1) 1 2 ("1:2:3".toList) ("2:3".toList)
    (':' :: ['3']) (by decide) (by decide) (by decide)

/-! ### Helper lemmas about the main model -/

theorem optLoop_eq_none_iff (opts : List Opt) (m p s : Option (List Char)) :
    optLoop opts m p s = none ↔ Opt.h ∈ opts := by
  induction opts generalizing m p s with
  | nil => simp [optLoop]
  | cons o rest ih => cases o <;> simp [optLoop, ih]

/-- Exhaustive enumeration of the results of `runDevice`, one disjunct per
early-return path of the C code, in program order. -/
theorem runDevice_shape (mo po so : Option (List Char)) (arg : List Char)
    (w : World) :
    runDevice mo po so arg w = (1, [.errMsg]) ∨
    runDevice mo po so arg w = (1, [.libusbInit, .getDeviceList, .errMsg]) ∨
    runDevice mo po so arg w =
      (1, [.libusbInit, .getDeviceList, .ftdiInit, .errMsg]) ∨
    runDevice mo po so arg w =
      (1, [.libusbInit, .getDeviceList, .ftdiInit, .openDev, .errMsg, .errMsg]) ∨
    runDevice mo po so arg w =
      (1, [.libusbInit, .getDeviceList, .ftdiInit, .openDev,
           .getDeviceDescriptor, .errMsg]) ∨
    runDevice mo po so arg w =
      (1, [.libusbInit, .getDeviceList, .ftdiInit, .openDev,
           .getDeviceDescriptor, .getManufacturer, .errMsg]) ∨
    runDevice mo po so arg w =
      (1, [.libusbInit, .getDeviceList, .ftdiInit, .openDev,
           .getDeviceDescriptor, .getManufacturer, .getProduct, .errMsg]) ∨
    runDevice mo po so arg w =
      (1, [.libusbInit, .getDeviceList, .ftdiInit, .openDev,
           .getDeviceDescriptor, .getManufacturer, .getProduct, .getSerial,
           .errMsg]) ∨
    (∃ origM origP origS,
      w.manufRes = .ok origM ∧ w.prodRes = .ok origP ∧
      w.serialRes = .ok origS ∧
      (runDevice mo po so arg w =
        (1, [.libusbInit, .getDeviceList, .ftdiInit, .openDev,
             .getDeviceDescriptor, .getManufacturer, .getProduct, .getSerial,
             .eepromInitdefaults (mo.getD origM) (po.getD origP)
               (so.getD origS), .errMsg]) ∨
       runDevice mo po so arg w =
        (1, [.libusbInit, .getDeviceList, .ftdiInit, .openDev,
             .getDeviceDescriptor, .getManufacturer, .getProduct, .getSerial,
             .eepromInitdefaults (mo.getD origM) (po.getD origP)
               (so.getD origS), .eepromBuild, .errMsg]) ∨
       runDevice mo po so arg w =
        (1, [.libusbInit, .getDeviceList, .ftdiInit, .openDev,
             .getDeviceDescriptor, .getManufacturer, .getProduct, .getSerial,
             .eepromInitdefaults (mo.getD origM) (po.getD origP)
               (so.getD origS), .eepromBuild, .writeEeprom, .errMsg]) ∨
       runDevice mo po so arg w =
        (0, [.libusbInit, .getDeviceList, .ftdiInit, .openDev,
             .getDeviceDescriptor, .getManufacturer, .getProduct, .getSerial,
             .eepromInitdefaults (mo.getD origM) (po.getD origP)
               (so.getD origS), .eepromBuild, .writeEeprom, .ftdiDeinit]))) := by
  unfold runDevice
  split
  · left; rfl
  · split
    · right; left; rfl
    · split
      · right; left; rfl
      · split
        · right; right; left; rfl
        · split
          · right; right; right; left; rfl
          · split
            · right; right; right; right; left; rfl
            · split
              · right; right; right; right; right; left; rfl
              · rename_i origM hM
                split
                · right; right; right; right; right; right; left; rfl
                · rename_i origP hP
                  split
                  · right; right; right; right; right; right; right; left; rfl
                  · rename_i origS hS
                    split
                    · exact Or.inr (Or.inr (Or.inr (Or.inr (Or.inr (Or.inr
                        (Or.inr (Or.inr ⟨origM, origP, origS, hM, hP, hS,
                          Or.inl rfl⟩)))))))
                    · split
                      · exact Or.inr (Or.inr (Or.inr (Or.inr (Or.inr (Or.inr
                          (Or.inr (Or.inr ⟨origM, origP, origS, hM, hP, hS,
                            Or.inr (Or.inl rfl)⟩)))))))
                      · split
                        · exact Or.inr (Or.inr (Or.inr (Or.inr (Or.inr (Or.inr
                            (Or.inr (Or.inr ⟨origM, origP, origS, hM, hP, hS,
                              Or.inr (Or.inr (Or.inl rfl))⟩)))))))
                        · exact Or.inr (Or.inr (Or.inr (Or.inr (Or.inr (Or.inr
                            (Or.inr (Or.inr ⟨origM, origP, origS, hM, hP, hS,
                              Or.inr (Or.inr (Or.inr rfl))⟩)))))))

/-- Exhaustive enumeration of the results of `runMain`: the `-h` path, the
wrong-positional-count path, or the device sequence on the single
positional argument. -/
theorem runMain_cases (opts : List Opt) (positional : List (List Char))
    (w : World) :
    (Opt.h ∈ opts ∧ runMain opts positional w = (0, [.printHelpStdout])) ∨
    (Opt.h ∉ opts ∧ positional.length ≠ 1 ∧
      runMain opts positional w = (1, [.printHelpStdout])) ∨
    (Opt.h ∉ opts ∧ ∃ mo po so arg, positional = [arg] ∧
      optLoop opts none none none = some (mo, po, so) ∧
      runMain opts positional w = runDevice mo po so arg w) := by
  cases hopt : optLoop opts none none none with
  | none =>
    left
    exact ⟨(optLoop_eq_none_iff opts none none none).mp hopt,
      by unfold runMain; rw [hopt]⟩
  | some t =>
    obtain ⟨mo, po, so⟩ := t
    have hh : Opt.h ∉ opts := by
      intro hmem
      rw [(optLoop_eq_none_iff opts none none none).mpr hmem] at hopt
      exact Option.noConfusion hopt
    match positional with
    | [] =>
      right; left
      exact ⟨hh, by simp, by unfold runMain; rw [hopt]⟩
    | [arg] =>
      right; right
      exact ⟨hh, mo, po, so, arg, rfl, rfl, by unfold runMain; rw [hopt]⟩
    | a :: b :: r =>
      right; left
      exact ⟨hh, by simp, by unfold runMain; rw [hopt]⟩

/-- A world in which every library call succeeds, for concrete witnesses. -/
def allOkWorld : World where
  deviceList := .ok [⟨1, 2⟩]
  ftdiInitRes := 0
  openRes := 0
  devDescRes := .ok ()
  manufRes := .ok ("ACME".toList)
  prodRes := .ok ("Widget".toList)
  serialRes := .ok ("S1".toList)
  initdefaultsRes := 0
  buildRes := 0
  writeRes := 0

/-- A world in which USB enumeration fails, for concrete witnesses. -/
def listFailWorld : World where
  deviceList := .error (-3)
  ftdiInitRes := 0
  openRes := 0
  devDescRes := .ok ()
  manufRes := .ok ("ACME".toList)
  prodRes := .ok ("Widget".toList)
  serialRes := .ok ("S1".toList)
  initdefaultsRes := 0
  buildRes := 0
  writeRes := 0

/-! ### Claims about main -/

/-- C10: with `-h`/`--help` among the options, `main` prints the usage
text to standard output and returns `EXIT_SUCCESS` immediately, whatever
the positional arguments and whatever the USB world looks like; the trace
shows no USB enumeration or device access. -/
theorem claim_c10_help_exits_success (opts : List Opt)
    (positional : List (List Char)) (w : World) (h : Opt.h ∈ opts) :
    runMain opts positional w = (0, [Event.printHelpStdout]) := by
  unfold runMain
  rw [(optLoop_eq_none_iff opts none none none).mpr h]

/-- Witness for C10 at a concrete invocation. -/
theorem claim_c10_help_exits_success_witness :
    runMain [Opt.h] [] allOkWorld = (0, [Event.printHelpStdout]) :=
  claim_c10_help_exits_success [Opt.h] [] allOkWorld (by decide)

/-- C6: without `-h`, a positional argument count other than one makes
`main` print the help text and exit with failure status 1; the trace
shows the program touches no USB device. -/
theorem claim_c6_positional_count (opts : List Opt)
    (positional : List (List Char)) (w : World) (hh : Opt.h ∉ opts)
    (hn : positional.length ≠ 1) :
    runMain opts positional w = (1, [Event.printHelpStdout]) := by
  rcases runMain_cases opts positional w with
    ⟨hmem, _⟩ | ⟨_, _, he⟩ | ⟨_, mo, po, so, arg, hpos, _, _⟩
  · exact absurd hmem hh
  · exact he
  · rw [hpos] at hn
    exact absurd rfl hn

/-- Witness for C6 at a concrete invocation with no positional argument. -/
theorem claim_c6_positional_count_witness :
    runMain [] [] allOkWorld = (1, [Event.printHelpStdout]) :=
  claim_c6_positional_count [] [] allOkWorld (by decide) (by decide)

/-- C5: every successful run (one that reaches `ftdi_deinit`) performs
exactly the fixed linear sequence of steps, in program order: USB init,
device enumeration, FTDI init, open, descriptor read, the three string
reads, initdefaults, build, write, deinit. -/
theorem claim_c5_linear_sequence (opts : List Opt)
    (positional : List (List Char)) (w : World)
    (hsucc : Event.ftdiDeinit ∈ (runMain opts positional w).2) :
    ∃ m p s, (runMain opts positional w).2 =
      [Event.libusbInit, Event.getDeviceList, Event.ftdiInit, Event.openDev,
       Event.getDeviceDescriptor, Event.getManufacturer, Event.getProduct,
       Event.getSerial, Event.eepromInitdefaults m p s, Event.eepromBuild,
       Event.writeEeprom, Event.ftdiDeinit] := by
  rcases runMain_cases opts positional w with
    ⟨_, he⟩ | ⟨_, _, he⟩ | ⟨_, mo, po, so, arg, hpos, hopt, he⟩
  · rw [he] at hsucc; simp at hsucc
  · rw [he] at hsucc; simp at hsucc
  · rw [he] at hsucc ⊢
    rcases runDevice_shape mo po so arg w with
      h | h | h | h | h | h | h | h | ⟨oM, oP, oS, _, _, _, h4⟩
    · rw [h] at hsucc; simp at hsucc
    · rw [h] at hsucc; simp at hsucc
    · rw [h] at hsucc; simp at hsucc
    · rw [h] at hsucc; simp at hsucc
    · rw [h] at hsucc; simp at hsucc
    · rw [h] at hsucc; simp at hsucc
    · rw [h] at hsucc; simp at hsucc
    · rw [h] at hsucc; simp at hsucc
    · rcases h4 with h | h | h | h
      · rw [h] at hsucc; simp at hsucc
      · rw [h] at hsucc; simp at hsucc
      · rw [h] at hsucc; simp at hsucc
      · exact ⟨mo.getD oM, po.getD oP, so.getD oS, by rw [h]⟩

/-- Witness for C5: a run in which every call succeeds. -/
theorem claim_c5_linear_sequence_witness :
    ∃ m p s, (runMain [] [("1:2".toList)] allOkWorld).2 =
      [Event.libusbInit, Event.getDeviceList, Event.ftdiInit, Event.openDev,
       Event.getDeviceDescriptor, Event.getManufacturer, Event.getProduct,
       Event.getSerial, Event.eepromInitdefaults m p s, Event.eepromBuild,
       Event.writeEeprom, Event.ftdiDeinit] :=
  claim_c5_linear_sequence [] [("1:2".toList)] allOkWorld (by decide)

/-- C7: `ftdi_deinit` is reached exactly on the fully successful path:
every error exit after `ftdi_init`, like every earlier exit, returns
without deinitialising, so the close-the-handle invariant is indeed not
maintained on error paths. -/
theorem claim_c7_deinit_only_on_success (opts : List Opt)
    (positional : List (List Char)) (w : World) :
    Event.ftdiDeinit ∈ (runMain opts positional w).2 ↔
      (runMain opts positional w).1 = 0 ∧
      Event.writeEeprom ∈ (runMain opts positional w).2 := by
  rcases runMain_cases opts positional w with
    ⟨_, he⟩ | ⟨_, _, he⟩ | ⟨_, mo, po, so, arg, hpos, hopt, he⟩
  · rw [he]; simp
  · rw [he]; simp
  · rw [he]
    rcases runDevice_shape mo po so arg w with
      h | h | h | h | h | h | h | h | ⟨oM, oP, oS, _, _, _, h4⟩
    · rw [h]; simp
    · rw [h]; simp
    · rw [h]; simp
    · rw [h]; simp
    · rw [h]; simp
    · rw [h]; simp
    · rw [h]; simp
    · rw [h]; simp
    · rcases h4 with h | h | h | h
      · rw [h]; simp
      · rw [h]; simp
      · rw [h]; simp
      · rw [h]; simp

/-- C3: without `-h`, the exit code is always 0 or 1, and it is 0 exactly
when the whole sequence through `ftdi_write_eeprom` succeeded (observable
as the run reaching `ftdi_deinit`); every failure path exits 1. -/
theorem claim_c3_exit_codes (opts : List Opt)
    (positional : List (List Char)) (w : World) (hh : Opt.h ∉ opts) :
    ((runMain opts positional w).1 = 0 ↔
      Event.ftdiDeinit ∈ (runMain opts positional w).2) ∧
    ((runMain opts positional w).1 = 0 ∨ (runMain opts positional w).1 = 1) := by
  rcases runMain_cases opts positional w with
    ⟨hmem, _⟩ | ⟨_, _, he⟩ | ⟨_, mo, po, so, arg, hpos, hopt, he⟩
  · exact absurd hmem hh
  · rw [he]; simp
  · rw [he]
    rcases runDevice_shape mo po so arg w with
      h | h | h | h | h | h | h | h | ⟨oM, oP, oS, _, _, _, h4⟩
    · rw [h]; simp
    · rw [h]; simp
    · rw [h]; simp
    · rw [h]; simp
    · rw [h]; simp
    · rw [h]; simp
    · rw [h]; simp
    · rw [h]; simp
    · rcases h4 with h | h | h | h
      · rw [h]; simp
      · rw [h]; simp
      · rw [h]; simp
      · rw [h]; simp

/-- Witness for C3 at a concrete successful invocation. -/
theorem claim_c3_exit_codes_witness :
    ((runMain [] [("1:2".toList)] allOkWorld).1 = 0 ↔
      Event.ftdiDeinit ∈ (runMain [] [("1:2".toList)] allOkWorld).2) ∧
    ((runMain [] [("1:2".toList)] allOkWorld).1 = 0 ∨
      (runMain [] [("1:2".toList)] allOkWorld).1 = 1) :=
  claim_c3_exit_codes [] [("1:2".toList)] allOkWorld (by decide)

/-- C4: on every failing run of the device sequence (no `-h`, exactly one
positional argument, exit code 1), the trace is some prefix of library
calls followed only by stderr diagnostics (at least one): the program
reports the first error and stops, with no retry and no further library
call after the failure. -/
theorem claim_c4_fail_fast (opts : List Opt)
    (positional : List (List Char)) (w : World) (hh : Opt.h ∉ opts)
    (hl : positional.length = 1) (hf : (runMain opts positional w).1 = 1) :
    ∃ pre k, (runMain opts positional w).2 =
        pre ++ List.replicate k Event.errMsg ∧
      1 ≤ k ∧ Event.errMsg ∉ pre := by
  rcases runMain_cases opts positional w with
    ⟨hmem, _⟩ | ⟨_, hn, _⟩ | ⟨_, mo, po, so, arg, hpos, hopt, he⟩
  · exact absurd hmem hh
  · exact absurd hl hn
  · rw [he] at hf ⊢
    rcases runDevice_shape mo po so arg w with
      h | h | h | h | h | h | h | h | ⟨oM, oP, oS, _, _, _, h4⟩
    · rw [h]; exact ⟨[], 1, rfl, by decide, by simp⟩
    · rw [h]
      exact ⟨[.libusbInit, .getDeviceList], 1, rfl, by decide, by simp⟩
    · rw [h]
      exact ⟨[.libusbInit, .getDeviceList, .ftdiInit], 1, rfl, by decide,
        by simp⟩
    · rw [h]
      exact ⟨[.libusbInit, .getDeviceList, .ftdiInit, .openDev], 2, rfl,
        by decide, by simp⟩
    · rw [h]
      exact ⟨[.libusbInit, .getDeviceList, .ftdiInit, .openDev,
        .getDeviceDescriptor], 1, rfl, by decide, by simp⟩
    · rw [h]
      exact ⟨[.libusbInit, .getDeviceList, .ftdiInit, .openDev,
        .getDeviceDescriptor, .getManufacturer], 1, rfl, by decide, by simp⟩
    · rw [h]
      exact ⟨[.libusbInit, .getDeviceList, .ftdiInit, .openDev,
        .getDeviceDescriptor, .getManufacturer, .getProduct], 1, rfl,
        by decide, by simp⟩
    · rw [h]
      exact ⟨[.libusbInit, .getDeviceList, .ftdiInit, .openDev,
        .getDeviceDescriptor, .getManufacturer, .getProduct, .getSerial], 1,
        rfl, by decide, by simp⟩
    · rcases h4 with h | h | h | h
      · rw [h]
        exact ⟨[.libusbInit, .getDeviceList, .ftdiInit, .openDev,
          .getDeviceDescriptor, .getManufacturer, .getProduct, .getSerial,
          .eepromInitdefaults (mo.getD oM) (po.getD oP) (so.getD oS)], 1,
          rfl, by decide, by simp⟩
      · rw [h]
        exact ⟨[.libusbInit, .getDeviceList, .ftdiInit, .openDev,
          .getDeviceDescriptor, .getManufacturer, .getProduct, .getSerial,
          .eepromInitdefaults (mo.getD oM) (po.getD oP) (so.getD oS),
          .eepromBuild], 1, rfl, by decide, by simp⟩
      · rw [h]
        exact ⟨[.libusbInit, .getDeviceList, .ftdiInit, .openDev,
          .getDeviceDescriptor, .getManufacturer, .getProduct, .getSerial,
          .eepromInitdefaults (mo.getD oM) (po.getD oP) (so.getD oS),
          .eepromBuild, .writeEeprom], 1, rfl, by decide, by simp⟩
      · rw [h] at hf
        simp at hf

/-- Witness for C4: a run whose USB enumeration fails. -/
theorem claim_c4_fail_fast_witness :
    ∃ pre k, (runMain [] [("1:2".toList)] listFailWorld).2 =
        pre ++ List.replicate k Event.errMsg ∧
      1 ≤ k ∧ Event.errMsg ∉ pre :=
  claim_c4_fail_fast [] [("1:2".toList)] listFailWorld (by decide) (by decide)
    (by decide)

/-- C1: whenever the run reaches `ftdi_eeprom_initdefaults`, the strings
passed are exactly: the command-line value for each field the user gave,
and the string previously read from the device for each field the user
omitted. -/
theorem claim_c1_preserve_strings (opts : List Opt)
    (positional : List (List Char)) (w : World)
    (mo po so : Option (List Char)) (origM origP origS m p s : List Char)
    (hopt : optLoop opts none none none = some (mo, po, so))
    (hm : w.manufRes = .ok origM) (hp : w.prodRes = .ok origP)
    (hs : w.serialRes = .ok origS)
    (hev : Event.eepromInitdefaults m p s ∈ (runMain opts positional w).2) :
    m = mo.getD origM ∧ p = po.getD origP ∧ s = so.getD origS := by
  rcases runMain_cases opts positional w with
    ⟨hmem, _⟩ | ⟨_, _, he⟩ | ⟨_, mo2, po2, so2, arg, hpos, hopt2, he⟩
  · rw [(optLoop_eq_none_iff opts none none none).mpr hmem] at hopt
    exact Option.noConfusion hopt
  · rw [he] at hev; simp at hev
  · rw [hopt] at hopt2
    obtain ⟨e1, e2, e3⟩ : mo2 = mo ∧ po2 = po ∧ so2 = so := by
      have := Option.some.inj hopt2
      exact ⟨congrArg Prod.fst this.symm,
        congrArg Prod.fst (congrArg Prod.snd this.symm),
        congrArg Prod.snd (congrArg Prod.snd this.symm)⟩
    subst e1; subst e2; subst e3
    rw [he] at hev
    rcases runDevice_shape mo2 po2 so2 arg w with
      h | h | h | h | h | h | h | h | ⟨oM, oP, oS, hM2, hP2, hS2, h4⟩
    · rw [h] at hev; simp at hev
    · rw [h] at hev; simp at hev
    · rw [h] at hev; simp at hev
    · rw [h] at hev; simp at hev
    · rw [h] at hev; simp at hev
    · rw [h] at hev; simp at hev
    · rw [h] at hev; simp at hev
    · rw [h] at hev; simp at hev
    · rw [hm] at hM2; rw [hp] at hP2; rw [hs] at hS2
      obtain rfl : oM = origM := (Except.ok.inj hM2).symm
      obtain rfl : oP = origP := (Except.ok.inj hP2).symm
      obtain rfl : oS = origS := (Except.ok.inj hS2).symm
      rcases h4 with h | h | h | h <;>
        · rw [h] at hev
          simp at hev
          exact hev

/-- Witness for C1: `-p` given on the command line, `-m`/`-s` omitted. -/
theorem claim_c1_preserve_strings_witness :
    "ACME".toList = (Option.getD none ("ACME".toList)) ∧
    "Widget2".toList =
      (Option.getD (some ("Widget2".toList)) ("Widget".toList)) ∧
    "S1".toList = (Option.getD none ("S1".toList)) :=
  claim_c1_preserve_strings [Opt.p ("Widget2".toList)] [("1:2".toList)]
    allOkWorld none (some ("Widget2".toList)) none ("ACME".toList)
    ("Widget".toList) ("S1".toList) ("ACME".toList) ("Widget2".toList)
    ("S1".toList) (by decide) rfl rfl rfl (by decide)

end FtdiEeprom
